import Mathlib

/-!
Verification of the budget application's routing-number utilities and
ledger balance rules.  Python strings are modelled as `List Char`, Python
floats as exact rationals `ℚ`, Python `None` as `Option.none`.
-/

set_option maxHeartbeats 1000000

namespace Budget

/-! ### bank_lookup.py -/

/-- The static routing-number → bank-name table `BANK_ROUTING_DATABASE`,
in source (insertion) order. -/
def BANK_ROUTING_DATABASE : List (String × String) :=
  [("021000021", "Chase Bank"),
   ("021000322", "Chase Bank"),
   ("022000020", "Chase Bank"),
   ("125000024", "Wells Fargo Bank"),
   ("121000248", "Wells Fargo Bank"),
   ("111000025", "Bank of America"),
   ("026009593", "Bank of America"),
   ("121042882", "Wells Fargo Bank"),
   ("053000196", "Bank of America"),
   ("054001204", "Bank of America"),
   ("063100277", "JPMorgan Chase Bank"),
   ("267084131", "JPMorgan Chase Bank"),
   ("021200025", "JPMorgan Chase Bank"),
   ("122105278", "Wells Fargo Bank"),
   ("114000093", "PNC Bank"),
   ("043000096", "PNC Bank"),
   ("054000030", "Citizens Bank"),
   ("211274450", "TD Bank"),
   ("031201360", "TD Bank"),
   ("031100209", "TD Bank"),
   ("101000019", "Bank of the West"),
   ("321270742", "Huntington National Bank"),
   ("044000024", "Huntington National Bank"),
   ("307070115", "Navy Federal Credit Union"),
   ("256074974", "Navy Federal Credit Union"),
   ("211391825", "USAA Federal Savings Bank"),
   ("314074269", "Pentagon Federal Credit Union"),
   ("253177832", "Pentagon Federal Credit Union"),
   ("263179817", "Publix Employees Federal Credit Union (PEFCU)"),
   ("322271627", "Regions Bank"),
   ("062000019", "Regions Bank"),
   ("065400137", "KeyBank"),
   ("041001039", "KeyBank"),
   ("031176110", "Ally Bank"),
   ("124303120", "Capital One Bank"),
   ("051405515", "Capital One Bank"),
   ("103100195", "ING Direct (Capital One 360)"),
   ("031100649", "Discover Bank"),
   ("011103093", "American Express Bank")]

/-- The Federal-Reserve region table `ROUTING_REGIONS` keyed by the first
four digits. -/
def ROUTING_REGIONS : List (String × String) :=
  [("0210", "Boston, MA"),
   ("0211", "Boston, MA"),
   ("0212", "New York, NY"),
   ("0213", "New York, NY"),
   ("0214", "Philadelphia, PA"),
   ("0215", "Philadelphia, PA"),
   ("0216", "Cleveland, OH"),
   ("0217", "Cleveland, OH"),
   ("0218", "Richmond, VA"),
   ("0219", "Richmond, VA"),
   ("0220", "Atlanta, GA"),
   ("0221", "Atlanta, GA"),
   ("0222", "Chicago, IL"),
   ("0223", "Chicago, IL"),
   ("0224", "St. Louis, MO"),
   ("0225", "St. Louis, MO"),
   ("0226", "Minneapolis, MN"),
   ("0227", "Minneapolis, MN"),
   ("0228", "Kansas City, MO"),
   ("0229", "Kansas City, MO"),
   ("0230", "Dallas, TX"),
   ("0231", "Dallas, TX"),
   ("0232", "San Francisco, CA"),
   ("0233", "San Francisco, CA")]

/-- `validate_routing_number`: length-9 all-digit check and the ABA weighted
checksum with coefficients `[3,7,1,3,7,1,3,7,1]`, valid iff the weighted sum
is divisible by 10.  `int(digit)` becomes `c.toNat - 48`. -/
def validate_routing_number (rn : List Char) : Bool :=
  if rn = [] ∨ rn.length ≠ 9 then false
  else if ¬ (rn.all Char.isDigit) then false
  else ((rn.zip [3, 7, 1, 3, 7, 1, 3, 7, 1]).map
          (fun dc => (dc.1.toNat - 48) * dc.2)).sum % 10 == 0

/-- Numeric value of a decimal digit character. -/
def digitVal (c : Char) : ℕ := c.toNat - 48

/-- The repeating ABA weight pattern over the nine positions. -/
def checksumWeights : List ℕ := [3, 7, 1, 3, 7, 1, 3, 7, 1]

/-- The weighted digit sum the specification describes: each digit times the
corresponding weight of the repeating pattern `[3,7,1,...]`. -/
def weightedDigitSum (rn : List Char) : ℕ :=
  ((rn.zip checksumWeights).map (fun dc => digitVal dc.1 * dc.2)).sum

/-- C3: `validate_routing_number` accepts exactly the 9-character all-digit
strings whose `[3,7,1]`-weighted digit sum is divisible by 10; in particular
it accepts `"021000021"` and rejects `"021000022"`, and any string of the
wrong length or with a non-digit is rejected (those fail the right-hand
side). -/
theorem claim_C3 :
    (∀ rn : List Char,
        validate_routing_number rn = true ↔
          rn.length = 9 ∧ rn.all Char.isDigit = true ∧ weightedDigitSum rn % 10 = 0) ∧
    validate_routing_number "021000021".toList = true ∧
    validate_routing_number "021000022".toList = false := by
  refine ⟨fun rn => ?_, by decide, by decide⟩
  unfold validate_routing_number
  rcases Decidable.em (rn = [] ∨ rn.length ≠ 9) with h1 | h1
  · rw [if_pos h1]
    refine iff_of_false (by simp) fun hr => ?_
    obtain ⟨hlen, -, -⟩ := hr
    rcases h1 with rfl | h1
    · simp at hlen
    · exact h1 hlen
  · rw [if_neg h1]
    push_neg at h1
    rcases Decidable.em (rn.all Char.isDigit = true) with h2 | h2
    · rw [if_neg (not_not_intro h2)]
      simp only [beq_iff_eq, weightedDigitSum, digitVal, checksumWeights]
      constructor
      · intro h; exact ⟨h1.2, h2, h⟩
      · rintro ⟨-, -, h⟩; exact h
    · rw [if_pos h2]
      refine iff_of_false (by simp) fun hr => ?_
      obtain ⟨-, hdig, -⟩ := hr
      exact h2 hdig

/-- Python's `s.replace(c, "")` for a single character: every occurrence of
`c` is removed. -/
def removeAll (c : Char) (s : List Char) : List Char :=
  s.filter (fun x => x ≠ c)

/-- The dictionary `lookup_bank_by_routing` returns, with absent keys
modelled as `none` fields.  `valid` is always present. -/
structure LookupResult where
  valid : Bool
  bank_name : Option String
  routing_number : Option (List Char)
  region : Option String
  source : Option String
  error : Option String
deriving DecidableEq

/-- `routing_number.startswith(tuple)`: true when any of the given strings
is a prefix of the input. -/
def startsWithAny (rn : List Char) (ps : List String) : Bool :=
  ps.any (fun p => p.toList.isPrefixOf rn)

/-- The `bank_guess` if/elif chain of `lookup_bank_by_routing`, in source
order. -/
def bankGuessChain (rn : List Char) : Option String :=
  if startsWithAny rn ["021", "267", "063"] then some "Chase Bank (likely)"
  else if startsWithAny rn ["121", "125"] then some "Wells Fargo Bank (likely)"
  else if startsWithAny rn ["111", "026", "053", "054"] then some "Bank of America (likely)"
  else if startsWithAny rn ["114", "043"] then some "PNC Bank (likely)"
  else if startsWithAny rn ["322", "062"] then some "Regions Bank (likely)"
  else none

/-- `lookup_bank_by_routing`.  An empty (falsy) input returns `none` — the
Python function returns `None` before any normalization.  Otherwise the
input is normalized by removing hyphens and spaces, validated, and looked
up directly, by pattern, or by region. -/
def lookup_bank_by_routing (routing_number : List Char) : Option LookupResult :=
  if routing_number = [] then none
  else
    let rn := removeAll ' ' (removeAll '-' routing_number)
    if ¬ validate_routing_number rn then
      some { valid := false, bank_name := none, routing_number := none,
             region := none, source := none,
             error := some "Invalid routing number format or checksum" }
    else
      match BANK_ROUTING_DATABASE.lookup (String.mk rn) with
      | some bank_name =>
          some { valid := true, bank_name := some bank_name,
                 routing_number := some rn,
                 region := some ((ROUTING_REGIONS.lookup (String.mk (rn.take 4))).getD
                   "Unknown Region"),
                 source := some "direct_match", error := none }
      | none =>
          let region := (ROUTING_REGIONS.lookup (String.mk (rn.take 4))).getD
            "Unknown Region"
          let bank_guess := bankGuessChain rn
          some { valid := true, bank_name := some (bank_guess.getD "Unknown Bank"),
                 routing_number := some rn, region := some region,
                 source := some (if bank_guess.isSome then "pattern_match"
                                 else "region_only"),
                 error := none }

/-- The fixed ordered set of 3-digit guess patterns the specification
describes, flattened from the if/elif chain in source order. -/
def BANK_GUESS_PATTERNS : List (String × String) :=
  [("021", "Chase Bank"), ("267", "Chase Bank"), ("063", "Chase Bank"),
   ("121", "Wells Fargo Bank"), ("125", "Wells Fargo Bank"),
   ("111", "Bank of America"), ("026", "Bank of America"),
   ("053", "Bank of America"), ("054", "Bank of America"),
   ("114", "PNC Bank"), ("043", "PNC Bank"),
   ("322", "Regions Bank"), ("062", "Regions Bank")]

/-- The specification's reading of the guess step: the first entry of the
ordered pattern list whose prefix matches. -/
def firstPatternGuess (rn : List Char) : Option String :=
  (BANK_GUESS_PATTERNS.find? (fun p => p.1.toList.isPrefixOf rn)).map (fun p => p.2)

/-- The if/elif guess chain computes exactly the first matching entry of the
ordered pattern list, suffixed with " (likely)". -/
theorem bankGuessChain_eq_firstPatternGuess (rn : List Char) :
    bankGuessChain rn = (firstPatternGuess rn).map (fun g => g ++ " (likely)") := by
  unfold bankGuessChain firstPatternGuess BANK_GUESS_PATTERNS startsWithAny
  simp only [List.any_cons, List.any_nil, Bool.or_false, List.find?]
  cases h1 : ("021".toList.isPrefixOf rn) with
  | true => rfl
  | false =>
  cases h2 : ("267".toList.isPrefixOf rn) with
  | true => rfl
  | false =>
  cases h3 : ("063".toList.isPrefixOf rn) with
  | true => rfl
  | false =>
  cases h4 : ("121".toList.isPrefixOf rn) with
  | true => rfl
  | false =>
  cases h5 : ("125".toList.isPrefixOf rn) with
  | true => rfl
  | false =>
  cases h6 : ("111".toList.isPrefixOf rn) with
  | true => rfl
  | false =>
  cases h7 : ("026".toList.isPrefixOf rn) with
  | true => rfl
  | false =>
  cases h8 : ("053".toList.isPrefixOf rn) with
  | true => rfl
  | false =>
  cases h9 : ("054".toList.isPrefixOf rn) with
  | true => rfl
  | false =>
  cases h10 : ("114".toList.isPrefixOf rn) with
  | true => rfl
  | false =>
  cases h11 : ("043".toList.isPrefixOf rn) with
  | true => rfl
  | false =>
  cases h12 : ("322".toList.isPrefixOf rn) with
  | true => rfl
  | false =>
  cases h13 : ("062".toList.isPrefixOf rn) with
  | true => rfl
  | false => rfl

/-- A valid routing number is nine characters long and all digits. -/
theorem validate_length_digits {rn : List Char}
    (h : validate_routing_number rn = true) :
    rn.length = 9 ∧ rn.all Char.isDigit = true := by
  unfold validate_routing_number at h
  by_cases h1 : rn = [] ∨ rn.length ≠ 9
  · rw [if_pos h1] at h; cases h
  · by_cases h2 : rn.all Char.isDigit = true
    · push_neg at h1; exact ⟨h1.2, h2⟩
    · rw [if_neg h1, if_pos h2] at h; cases h

/-- An all-digit string is unchanged by removing a non-digit character. -/
theorem removeAll_of_all_digits {rn : List Char} (c : Char)
    (hc : c.isDigit = false) (h : rn.all Char.isDigit = true) :
    removeAll c rn = rn := by
  unfold removeAll
  rw [List.filter_eq_self]
  intro a ha
  have hd : a.isDigit = true := by
    rw [List.all_eq_true] at h
    exact h a ha
  have hne : a ≠ c := by
    intro hac
    rw [hac] at hd
    rw [hd] at hc
    cases hc
  simp [hne]

/-- C4: for every normalized routing number that passes the checksum but is
not in the static table, the lookup succeeds with `valid = true`; the bank
name is the first matching entry of the fixed ordered 3-digit pattern list
suffixed with " (likely)" and source "pattern_match", or "Unknown Bank"
with source "region_only" when no pattern matches.  In particular
`lookup("111111118")` guesses Bank of America by pattern. -/
theorem claim_C4 :
    (∀ rn : List Char, validate_routing_number rn = true →
        BANK_ROUTING_DATABASE.lookup (String.mk rn) = none →
        lookup_bank_by_routing rn = some
          { valid := true,
            bank_name := some (match firstPatternGuess rn with
                               | some g => g ++ " (likely)"
                               | none => "Unknown Bank"),
            routing_number := some rn,
            region := some ((ROUTING_REGIONS.lookup (String.mk (rn.take 4))).getD
              "Unknown Region"),
            source := some (if (firstPatternGuess rn).isSome then "pattern_match"
                            else "region_only"),
            error := none }) ∧
    lookup_bank_by_routing "111111118".toList = some
      { valid := true, bank_name := some "Bank of America (likely)",
        routing_number := some "111111118".toList,
        region := some "Unknown Region",
        source := some "pattern_match", error := none } := by
  constructor
  · intro rn hv htab
    obtain ⟨hlen, hdig⟩ := validate_length_digits hv
    have hne : rn ≠ [] := by
      intro h
      rw [h] at hlen
      cases hlen
    have hnorm : removeAll ' ' (removeAll '-' rn) = rn := by
      rw [removeAll_of_all_digits '-' (by decide) hdig,
          removeAll_of_all_digits ' ' (by decide) hdig]
    unfold lookup_bank_by_routing
    rw [if_neg hne]
    simp only [hnorm]
    rw [if_neg (not_not_intro hv), htab]
    rw [bankGuessChain_eq_firstPatternGuess]
    cases hg : firstPatternGuess rn <;> simp
  · decide

/-- Witness for C4 at the concrete input `"111111118"`. -/
theorem claim_C4_witness :
    validate_routing_number "111111118".toList = true ∧
    BANK_ROUTING_DATABASE.lookup (String.mk "111111118".toList) = none ∧
    lookup_bank_by_routing "111111118".toList = some
      { valid := true, bank_name := some "Bank of America (likely)",
        routing_number := some "111111118".toList,
        region := some "Unknown Region",
        source := some "pattern_match", error := none } :=
  ⟨by decide, by decide, by
    have h := claim_C4.1 "111111118".toList (by decide) (by decide)
    exact h.trans (by decide)⟩

/-- C5 counterexample: for the empty input string the lookup returns `none`
(the Python function returns `None`), not the structured rejection the
claim promises for every rejected input including the empty string. -/
theorem claim_C5_counterexample :
    lookup_bank_by_routing [] = none ∧
    lookup_bank_by_routing [] ≠ some
      { valid := false, bank_name := none, routing_number := none,
        region := none, source := none,
        error := some "Invalid routing number format or checksum" } :=
  ⟨rfl, by decide⟩

/-- C5 (amended): for every *nonempty* input string, the lookup normalizes
by removing hyphens and spaces, and whenever the validator rejects the
normalized string it returns the structured rejection with `valid = false`
and the fixed error message; the empty string instead returns no result at
all. -/
theorem claim_C5 :
    (∀ s : List Char, s ≠ [] →
        validate_routing_number (removeAll ' ' (removeAll '-' s)) = false →
        lookup_bank_by_routing s = some
          { valid := false, bank_name := none, routing_number := none,
            region := none, source := none,
            error := some "Invalid routing number format or checksum" }) ∧
    lookup_bank_by_routing [] = none := by
  constructor
  · intro s hne hv
    unfold lookup_bank_by_routing
    rw [if_neg hne]
    simp [hv]
  · rfl

/-- Witness for C5 at the concrete input `"02100002a"` (non-digit). -/
theorem claim_C5_witness :
    "02100002a".toList ≠ [] ∧
    validate_routing_number (removeAll ' ' (removeAll '-' "02100002a".toList)) = false ∧
    lookup_bank_by_routing "02100002a".toList = some
      { valid := false, bank_name := none, routing_number := none,
        region := none, source := none,
        error := some "Invalid routing number format or checksum" } :=
  ⟨by decide, by decide, claim_C5.1 "02100002a".toList (by decide) (by decide)⟩

/-! ### app.py — transactions and account balances -/

/-- A transaction row: signed-effect amount, kind (`type` column), optional
category reference, owning account.  Dates and descriptions carry no
balance semantics and are omitted. -/
structure Transaction where
  amount : ℚ
  type : String
  category_id : Option ℕ
  account_id : ℕ
deriving DecidableEq

/-- The ledger state the three transaction handlers act on: each account id
has a fixed opening balance and a stored running balance, plus the list of
committed transaction rows. -/
structure LedgerState where
  opening : ℕ → ℚ
  balance : ℕ → ℚ
  txns : List Transaction

/-- The specification's effect function: `+amount` for income, `-amount`
for expense, `0` for any other kind (including transfer). -/
def effect (amount : ℚ) (ty : String) : ℚ :=
  if ty = "income" then amount else if ty = "expense" then -amount else 0

/-- The effect a transaction has on a given account's balance: its effect
when attached to that account, zero otherwise. -/
def txnEffectOn (t : Transaction) (a : ℕ) : ℚ :=
  if t.account_id = a then effect t.amount t.type else 0

/-- `add_transaction` (POST branch): adjust the target account's balance by
kind, then commit the new row. -/
def add_transaction (st : LedgerState) (t : Transaction) : LedgerState :=
  let bal :=
    if t.type = "income" then
      Function.update st.balance t.account_id (st.balance t.account_id + t.amount)
    else if t.type = "expense" then
      Function.update st.balance t.account_id (st.balance t.account_id - t.amount)
    else st.balance
  { st with balance := bal, txns := st.txns ++ [t] }

/-- `edit_transaction` (POST branch): revert the old effect on the old
account, apply the new effect on the new account, overwrite the row.  An
out-of-range index models `first_or_404`: nothing is committed. -/
def edit_transaction (st : LedgerState) (i : ℕ) (t' : Transaction) : LedgerState :=
  if h : i < st.txns.length then
    let old := st.txns.get ⟨i, h⟩
    let bal1 :=
      if old.type = "income" then
        Function.update st.balance old.account_id (st.balance old.account_id - old.amount)
      else if old.type = "expense" then
        Function.update st.balance old.account_id (st.balance old.account_id + old.amount)
      else st.balance
    let bal2 :=
      if t'.type = "income" then
        Function.update bal1 t'.account_id (bal1 t'.account_id + t'.amount)
      else if t'.type = "expense" then
        Function.update bal1 t'.account_id (bal1 t'.account_id - t'.amount)
      else bal1
    { st with balance := bal2, txns := st.txns.set i t' }
  else st

/-- `delete_transaction`: revert the row's effect on its account, then
remove the row.  An out-of-range index models `first_or_404`. -/
def delete_transaction (st : LedgerState) (i : ℕ) : LedgerState :=
  if h : i < st.txns.length then
    let t := st.txns.get ⟨i, h⟩
    let bal :=
      if t.type = "income" then
        Function.update st.balance t.account_id (st.balance t.account_id - t.amount)
      else if t.type = "expense" then
        Function.update st.balance t.account_id (st.balance t.account_id + t.amount)
      else st.balance
    { st with balance := bal, txns := st.txns.eraseIdx i }
  else st

/-- One committed mutation of the transaction set. -/
inductive LedgerOp where
  | create (t : Transaction)
  | update (i : ℕ) (t : Transaction)
  | delete (i : ℕ)

/-- Dispatch a mutation to the corresponding handler. -/
def applyOp (st : LedgerState) (op : LedgerOp) : LedgerState :=
  match op with
  | .create t => add_transaction st t
  | .update i t => edit_transaction st i t
  | .delete i => delete_transaction st i

/-- Sum of the effects on account `a` of the transactions in a list. -/
def effSum (a : ℕ) : List Transaction → ℚ
  | [] => 0
  | t :: ts => txnEffectOn t a + effSum a ts

/-- The balance invariant of the specification: every account's stored
balance is its opening balance plus the summed effects of the transactions
currently attached to it. -/
def BalanceInvariant (st : LedgerState) : Prop :=
  ∀ a : ℕ, st.balance a = st.opening a + effSum a st.txns

theorem effSum_append (a : ℕ) (l1 l2 : List Transaction) :
    effSum a (l1 ++ l2) = effSum a l1 + effSum a l2 := by
  induction l1 with
  | nil => simp [effSum]
  | cons t ts ih =>
    simp only [List.cons_append, effSum, List.append_eq, ih]
    ring

theorem effSum_set (a : ℕ) (t' : Transaction) :
    ∀ (l : List Transaction) (i : ℕ) (h : i < l.length),
      effSum a (l.set i t') =
        effSum a l - txnEffectOn (l.get ⟨i, h⟩) a + txnEffectOn t' a := by
  intro l
  induction l with
  | nil => intro i h; cases h
  | cons t ts ih =>
    intro i h
    cases i with
    | zero =>
      simp only [List.set, effSum, List.get]
      ring
    | succ j =>
      have hj : j < ts.length := by simpa using h
      simp only [List.set, effSum, List.get]
      rw [ih j hj]
      ring

theorem effSum_eraseIdx (a : ℕ) :
    ∀ (l : List Transaction) (i : ℕ) (h : i < l.length),
      effSum a (l.eraseIdx i) =
        effSum a l - txnEffectOn (l.get ⟨i, h⟩) a := by
  intro l
  induction l with
  | nil => intro i h; cases h
  | cons t ts ih =>
    intro i h
    cases i with
    | zero =>
      simp only [List.eraseIdx, effSum, List.get]
      ring
    | succ j =>
      have hj : j < ts.length := by simpa using h
      simp only [List.eraseIdx, effSum, List.get]
      rw [ih j hj]
      ring

/-- The add-side if/elif balance adjustment applied pointwise. -/
theorem apply_effect_add (bal : ℕ → ℚ) (t : Transaction) (a : ℕ) :
    (if t.type = "income" then
        Function.update bal t.account_id (bal t.account_id + t.amount)
      else if t.type = "expense" then
        Function.update bal t.account_id (bal t.account_id - t.amount)
      else bal) a = bal a + txnEffectOn t a := by
  unfold txnEffectOn effect
  by_cases h1 : t.type = "income"
  · simp only [if_pos h1, Function.update_apply]
    by_cases ha : a = t.account_id
    · subst ha
      simp only [eq_self_iff_true, if_true]
    · rw [if_neg ha, if_neg (fun hh => ha hh.symm)]
      ring
  · by_cases h2 : t.type = "expense"
    · simp only [if_neg h1, if_pos h2, Function.update_apply]
      by_cases ha : a = t.account_id
      · subst ha
        simp only [eq_self_iff_true, if_true]
        ring
      · rw [if_neg ha, if_neg (fun hh => ha hh.symm)]
        ring
    · simp only [if_neg h1, if_neg h2]
      by_cases ha : t.account_id = a
      · rw [if_pos ha]; ring
      · rw [if_neg ha]; ring

/-- The revert-side if/elif balance adjustment applied pointwise. -/
theorem apply_effect_sub (bal : ℕ → ℚ) (t : Transaction) (a : ℕ) :
    (if t.type = "income" then
        Function.update bal t.account_id (bal t.account_id - t.amount)
      else if t.type = "expense" then
        Function.update bal t.account_id (bal t.account_id + t.amount)
      else bal) a = bal a - txnEffectOn t a := by
  unfold txnEffectOn effect
  by_cases h1 : t.type = "income"
  · simp only [if_pos h1, Function.update_apply]
    by_cases ha : a = t.account_id
    · subst ha
      simp only [eq_self_iff_true, if_true]
    · rw [if_neg ha, if_neg (fun hh => ha hh.symm)]
      ring
  · by_cases h2 : t.type = "expense"
    · simp only [if_neg h1, if_pos h2, Function.update_apply]
      by_cases ha : a = t.account_id
      · subst ha
        simp only [eq_self_iff_true, if_true]
        ring
      · rw [if_neg ha, if_neg (fun hh => ha hh.symm)]
        ring
    · simp only [if_neg h1, if_neg h2]
      by_cases ha : t.account_id = a
      · rw [if_pos ha]; ring
      · rw [if_neg ha]; ring

theorem applyOp_invariant (st : LedgerState) (op : LedgerOp)
    (h : BalanceInvariant st) : BalanceInvariant (applyOp st op) := by
  cases op with
  | create t =>
    intro a
    simp only [applyOp, add_transaction]
    rw [apply_effect_add, h a, effSum_append]
    simp only [effSum]
    ring
  | update i t' =>
    intro a
    simp only [applyOp, edit_transaction]
    by_cases hi : i < st.txns.length
    · rw [dif_pos hi]
      dsimp only
      rw [apply_effect_add, apply_effect_sub, h a,
        effSum_set a t' st.txns i hi]
      ring
    · rw [dif_neg hi]
      exact h a
  | delete i =>
    intro a
    simp only [applyOp, delete_transaction]
    by_cases hi : i < st.txns.length
    · rw [dif_pos hi]
      dsimp only
      rw [apply_effect_sub, h a, effSum_eraseIdx a st.txns i hi]
      ring
    · rw [dif_neg hi]
      exact h a

/-- C1: for every starting state satisfying the balance invariant and every
sequence of committed create/update/delete operations, the invariant holds
after each committed operation (the sequence is arbitrary, so every prefix
is covered). -/
theorem claim_C1 (st : LedgerState) (h : BalanceInvariant st)
    (ops : List LedgerOp) : BalanceInvariant (ops.foldl applyOp st) := by
  induction ops generalizing st with
  | nil => exact h
  | cons op rest ih =>
    exact ih (applyOp st op) (applyOp_invariant st op h)

/-- Witness for C1: a fresh ledger with two accounts, then a create, an
update moving the row to another account and kind, and a delete. -/
theorem claim_C1_witness :
    BalanceInvariant ⟨fun _ => 0, fun _ => 0, []⟩ ∧
    BalanceInvariant
      ([LedgerOp.create ⟨100, "income", none, 1⟩,
        LedgerOp.update 0 ⟨40, "expense", none, 2⟩,
        LedgerOp.delete 0].foldl applyOp ⟨fun _ => 0, fun _ => 0, []⟩) := by
  have h0 : BalanceInvariant (⟨fun _ => 0, fun _ => 0, []⟩ : LedgerState) := by
    intro a; simp [effSum]
  exact ⟨h0, claim_C1 ⟨fun _ => 0, fun _ => 0, []⟩ h0 _⟩

/-- C2: a committed update of transaction `i` to new values `t'` changes
every account balance by exactly minus the old row's effect on that account
plus the new row's effect on it — so the old account loses the old effect,
the new account gains the new effect, the two collapse to a net change when
old and new account coincide, and every other account is unchanged. -/
theorem claim_C2 (st : LedgerState) (i : ℕ) (h : i < st.txns.length)
    (t' : Transaction) (a : ℕ) :
    (edit_transaction st i t').balance a =
      st.balance a - txnEffectOn (st.txns.get ⟨i, h⟩) a + txnEffectOn t' a := by
  unfold edit_transaction
  rw [dif_pos h]
  dsimp only
  rw [apply_effect_add, apply_effect_sub]

/-- Witness for C2: updating the single transaction of a concrete ledger,
moving it from account 1 (income 100) to account 2 (expense 40). -/
theorem claim_C2_witness :
    0 < ([⟨100, "income", none, 1⟩] : List Transaction).length ∧
    (edit_transaction ⟨fun _ => 0, fun a => if a = 1 then 100 else 0,
        [⟨100, "income", none, 1⟩]⟩ 0 ⟨40, "expense", none, 2⟩).balance 2 =
      (fun a => if a = 1 then (100 : ℚ) else 0) 2 -
        txnEffectOn (([⟨100, "income", none, 1⟩] : List Transaction).get ⟨0, by decide⟩) 2 +
        txnEffectOn ⟨40, "expense", none, 2⟩ 2 :=
  ⟨by decide,
   claim_C2 ⟨fun _ => 0, fun a => if a = 1 then 100 else 0,
     [⟨100, "income", none, 1⟩]⟩ 0 (by decide) ⟨40, "expense", none, 2⟩ 2⟩


/-! ### get_bank_suggestions -/

/-- One suggestion dictionary produced by `get_bank_suggestions`. -/
structure Suggestion where
  routing_number : String
  bank_name : String
  formatted_routing : String
deriving DecidableEq

/-- The f-string `DDD-DDD-DDD` formatting of a routing number. -/
def formatted_routing_of (r : String) : String :=
  String.mk (r.toList.take 3) ++ "-" ++
    String.mk ((r.toList.drop 3).take 3) ++ "-" ++
    String.mk (r.toList.drop 6)

/-- `get_bank_suggestions`: inputs shorter than 3 characters (or empty)
return no suggestions; otherwise the table entries whose routing number
starts with the partial input are collected in table order, sorted by bank
name (`sort(key=bank_name)`, modelled by insertion sort), and truncated to
10. -/
def get_bank_suggestions (pr : List Char) : List Suggestion :=
  if pr = [] ∨ pr.length < 3 then []
  else
    let suggestions :=
      (BANK_ROUTING_DATABASE.filter (fun e => pr.isPrefixOf e.1.toList)).map
        (fun e => { routing_number := e.1, bank_name := e.2,
                    formatted_routing := formatted_routing_of e.1 })
    (List.insertionSort (fun a b => a.bank_name ≤ b.bank_name) suggestions).take 10

instance : IsTotal Suggestion (fun a b => a.bank_name ≤ b.bank_name) :=
  ⟨fun a b => le_total a.bank_name b.bank_name⟩

instance : IsTrans Suggestion (fun a b => a.bank_name ≤ b.bank_name) :=
  ⟨fun _ _ _ hab hbc => le_trans hab hbc⟩

theorem mem_take_or_length {α : Type} {x : α} {l : List α} {n : ℕ}
    (h : x ∈ l) : x ∈ l.take n ∨ (l.take n).length = n := by
  by_cases hl : l.length ≤ n
  · left
    rwa [List.take_of_length_le hl]
  · right
    rw [List.length_take]
    push_neg at hl
    exact Nat.min_eq_left (le_of_lt hl)

/-- C6: partial inputs shorter than 3 characters give the empty list; in
the remaining cases every returned suggestion is a matching, correctly
formatted table entry, the output is sorted by bank name ascending, holds
at most 10 entries, and contains every matching entry unless truncation
hit the 10-entry cap. -/
theorem claim_C6 (pr : List Char) :
    (pr.length < 3 → get_bank_suggestions pr = []) ∧
    (get_bank_suggestions pr).length ≤ 10 ∧
    List.Sorted (fun a b : Suggestion => a.bank_name ≤ b.bank_name)
      (get_bank_suggestions pr) ∧
    (∀ s ∈ get_bank_suggestions pr,
        (s.routing_number, s.bank_name) ∈ BANK_ROUTING_DATABASE ∧
        pr.isPrefixOf s.routing_number.toList = true ∧
        s.formatted_routing = formatted_routing_of s.routing_number) ∧
    (3 ≤ pr.length → ∀ e ∈ BANK_ROUTING_DATABASE, pr.isPrefixOf e.1.toList = true →
        ({ routing_number := e.1, bank_name := e.2,
           formatted_routing := formatted_routing_of e.1 } : Suggestion)
            ∈ get_bank_suggestions pr ∨
          (get_bank_suggestions pr).length = 10) := by
  by_cases hc : pr = [] ∨ pr.length < 3
  · have hnil : get_bank_suggestions pr = [] := by
      unfold get_bank_suggestions
      rw [if_pos hc]
    refine ⟨fun _ => hnil, ?_, ?_, ?_, ?_⟩
    · rw [hnil]; simp
    · rw [hnil]; exact List.sorted_nil
    · rw [hnil]; intro s hs; cases hs
    · intro h3
      exfalso
      rcases hc with rfl | hlt
      · cases h3
      · omega
  · have hget : get_bank_suggestions pr =
        (List.insertionSort (fun a b => a.bank_name ≤ b.bank_name)
          ((BANK_ROUTING_DATABASE.filter (fun e => pr.isPrefixOf e.1.toList)).map
            (fun e => { routing_number := e.1, bank_name := e.2,
                        formatted_routing := formatted_routing_of e.1 }))).take 10 := by
      unfold get_bank_suggestions
      rw [if_neg hc]
    push_neg at hc
    refine ⟨fun hlen => absurd hlen (by omega), ?_, ?_, ?_, ?_⟩
    · rw [hget]
      exact List.length_take_le 10 _
    · rw [hget]
      exact (List.sorted_insertionSort _ _).sublist (List.take_sublist 10 _)
    · intro s hs
      rw [hget] at hs
      have hs2 := List.mem_of_mem_take hs
      rw [(List.perm_insertionSort _ _).mem_iff] at hs2
      obtain ⟨e, he, rfl⟩ := List.mem_map.mp hs2
      obtain ⟨heDB, hepre⟩ := List.mem_filter.mp he
      exact ⟨heDB, hepre, rfl⟩
    · intro _ e he hepre
      have hmem : ({ routing_number := e.1, bank_name := e.2,
                     formatted_routing := formatted_routing_of e.1 } : Suggestion) ∈
          (BANK_ROUTING_DATABASE.filter (fun e => pr.isPrefixOf e.1.toList)).map
            (fun e => ({ routing_number := e.1, bank_name := e.2,
                         formatted_routing := formatted_routing_of e.1 } : Suggestion)) :=
        List.mem_map.mpr ⟨e, List.mem_filter.mpr ⟨he, hepre⟩, rfl⟩
      rw [← (List.perm_insertionSort
        (fun a b : Suggestion => a.bank_name ≤ b.bank_name) _).mem_iff] at hmem
      rw [hget]
      exact mem_take_or_length hmem

/-- Witness for C6 at the concrete partial input `"021"` and the table
entry `("021000021", "Chase Bank")`. -/
theorem claim_C6_witness :
    3 ≤ "021".toList.length ∧
    ("021000021", "Chase Bank") ∈ BANK_ROUTING_DATABASE ∧
    "021".toList.isPrefixOf "021000021".toList = true ∧
    (({ routing_number := "021000021", bank_name := "Chase Bank",
        formatted_routing := formatted_routing_of "021000021" } : Suggestion) ∈
          get_bank_suggestions "021".toList ∨
      (get_bank_suggestions "021".toList).length = 10) :=
  ⟨by decide, by decide, by decide,
    (claim_C6 "021".toList).2.2.2.2 (by decide) ("021000021", "Chase Bank")
      (by decide) (by decide)⟩


/-! ### Investment derived values -/

/-- An investment holding: share count, purchase price, optional
user-supplied current price.  Symbols, names and dates carry no value
semantics and are omitted. -/
structure Investment where
  shares : ℚ
  purchase_price : ℚ
  current_price : Option ℚ
deriving DecidableEq

/-- Python `a or b` for a float-or-None left operand: `b` when `a` is
`None` or `0.0` (both falsy), else `a`. -/
def pyOrQ (a : Option ℚ) (b : ℚ) : ℚ :=
  match a with
  | some x => if x = 0 then b else x
  | none => b

/-- `Investment.total_value`: `shares * (current_price or purchase_price)`. -/
def total_value (inv : Investment) : ℚ :=
  inv.shares * pyOrQ inv.current_price inv.purchase_price

/-- `Investment.gain_loss`, with Python's parenthesization preserved:
`(current_price or purchase_price - purchase_price) * shares`, i.e. the
subtraction binds tighter than `or`. -/
def gain_loss (inv : Investment) : ℚ :=
  pyOrQ inv.current_price (inv.purchase_price - inv.purchase_price) * inv.shares

/-- C7 evidence: at shares 2, purchase price 10, current price 15 the code
computes `gain_loss = 30` (shares times the raw current price) while the
claimed formula `shares * (current - purchase)` gives 10; the absent
current-price case does return 0 as claimed. -/
theorem claim_C7 :
    gain_loss ⟨2, 10, some 15⟩ = 30 ∧
    (30 : ℚ) ≠ 2 * (15 - 10) ∧
    total_value ⟨2, 10, some 15⟩ = 30 ∧
    gain_loss ⟨2, 10, none⟩ = 0 := by
  refine ⟨?_, ?_, ?_, ?_⟩ <;> norm_num [gain_loss, total_value, pyOrQ]

/-! ### api_net_worth -/

/-- The slice of an account the net-worth endpoint reads. -/
structure AccountNW where
  balance : ℚ
  investments : List Investment

/-- The JSON object `api_net_worth` returns. -/
structure NetWorthResult where
  assets : ℚ
  liabilities : ℚ
  net_worth : ℚ
  cash_assets : ℚ
  investment_assets : ℚ
  account_count : ℕ
deriving DecidableEq

/-- `api_net_worth`: cash assets are the positive balances summed,
liabilities the absolute value of the summed negative balances.  The
investment loop tests `hasattr(investment, 'current_value')`, but the
`Investment` model defines `current_price` and no `current_value`
attribute, so the test is always false and every investment contributes
`shares * purchase_price`. -/
def api_net_worth (accounts : List AccountNW) : NetWorthResult :=
  let cash_assets :=
    ((accounts.filter (fun acc => 0 < acc.balance)).map (fun acc => acc.balance)).sum
  let liabilities :=
    |((accounts.filter (fun acc => acc.balance < 0)).map (fun acc => acc.balance)).sum|
  let investment_assets :=
    (accounts.map (fun acc =>
      (acc.investments.map (fun inv => inv.shares * inv.purchase_price)).sum)).sum
  let total_assets := cash_assets + investment_assets
  let net_worth := total_assets - liabilities
  { assets := total_assets, liabilities := liabilities, net_worth := net_worth,
    cash_assets := cash_assets, investment_assets := investment_assets,
    account_count := accounts.length }

/-- C8 evidence: one account of balance 0 holding one investment with
shares 1, purchase price 10, current price 20.  The endpoint values the
investment at the purchase price (10), not the present current price (20),
because the `current_value` attribute it probes for never exists. -/
theorem claim_C8 :
    (api_net_worth [⟨0, [⟨1, 10, some 20⟩]⟩]).investment_assets = 10 ∧
    (10 : ℚ) ≠ 1 * 20 ∧
    api_net_worth [⟨0, [⟨1, 10, some 20⟩]⟩] =
      { assets := 10, liabilities := 0, net_worth := 10, cash_assets := 0,
        investment_assets := 10, account_count := 1 } := by
  refine ⟨?_, ?_, ?_⟩ <;> norm_num [api_net_worth]

/-! ### delete_category -/

/-- A category row. -/
structure Category where
  id : ℕ
  name : String
  type : String
  user_id : ℕ
deriving DecidableEq

/-- The state `delete_category` acts on: the category rows and all
transaction rows (the blocking count is taken over all transactions with
the given `category_id`). -/
structure CategoryState where
  categories : List Category
  txns : List Transaction

/-- `delete_category`: look up the category by id and owner
(`filter_by(...).first()`); flash an error when the id is not found or
when transactions still reference the category (counting them in the
message); otherwise delete the row (rows are keyed by the primary key
`id`).  The second component is the flash message. -/
def delete_category (st : CategoryState) (uid cid : ℕ) : CategoryState × String :=
  match (st.categories.filter (fun c => c.id == cid && c.user_id == uid)).head? with
  | none => (st, "Category not found!")
  | some c =>
    let transaction_count := (st.txns.filter (fun t => t.category_id == some cid)).length
    if 0 < transaction_count then
      (st, "Cannot delete category \"" ++ c.name ++ "\" - it has " ++
        toString transaction_count ++
        " associated transactions. Please reassign or delete those transactions first.")
    else
      ({ st with categories := st.categories.filter (fun c2 => !(c2.id == cid)) },
        "Category \"" ++ c.name ++ "\" deleted successfully!")

/-- C9: when the category exists for the caller, a deletion with one or
more referencing transactions is rejected before any mutation — the state
is returned unchanged and the message embeds the count of blocking
transactions — while a deletion with zero referencing transactions removes
the category (no row with its id remains) and leaves the transactions
untouched. -/
theorem claim_C9 (st : CategoryState) (uid cid : ℕ) (c : Category)
    (hfound : (st.categories.filter
      (fun c => c.id == cid && c.user_id == uid)).head? = some c) :
    (0 < (st.txns.filter (fun t => t.category_id == some cid)).length →
      (delete_category st uid cid).1 = st ∧
      ∃ s1 s2, (delete_category st uid cid).2 =
        s1 ++ toString
          (st.txns.filter (fun t => t.category_id == some cid)).length ++ s2) ∧
    ((st.txns.filter (fun t => t.category_id == some cid)).length = 0 →
      (delete_category st uid cid).1.categories =
        st.categories.filter (fun c2 => !(c2.id == cid)) ∧
      (∀ c2 ∈ (delete_category st uid cid).1.categories, c2.id ≠ cid) ∧
      (delete_category st uid cid).1.txns = st.txns) := by
  unfold delete_category
  rw [hfound]
  dsimp only
  constructor
  · intro hpos
    rw [if_pos hpos]
    refine ⟨rfl, "Cannot delete category \"" ++ c.name ++ "\" - it has ",
      " associated transactions. Please reassign or delete those transactions first.",
      ?_⟩
    simp [String.append_assoc]
  · intro hzero
    rw [if_neg (by omega)]
    refine ⟨rfl, ?_, rfl⟩
    intro c2 hc2
    have hmf := List.mem_filter.mp hc2
    simpa using hmf.2

/-- Witness for C9: a single category (id 1, user 7) referenced by one
transaction — the deletion is rejected, the state unchanged, and the
message carries the count. -/
theorem claim_C9_witness :
    (([⟨1, "Groceries", "expense", 7⟩] : List Category).filter
        (fun c => c.id == 1 && c.user_id == 7)).head? =
      some ⟨1, "Groceries", "expense", 7⟩ ∧
    0 < (([⟨5, "expense", some 1, 1⟩] : List Transaction).filter
        (fun t => t.category_id == some 1)).length ∧
    (delete_category ⟨[⟨1, "Groceries", "expense", 7⟩],
        [⟨5, "expense", some 1, 1⟩]⟩ 7 1).1 =
      (⟨[⟨1, "Groceries", "expense", 7⟩], [⟨5, "expense", some 1, 1⟩]⟩ : CategoryState) ∧
    ∃ s1 s2, (delete_category ⟨[⟨1, "Groceries", "expense", 7⟩],
        [⟨5, "expense", some 1, 1⟩]⟩ 7 1).2 =
      s1 ++ toString (([⟨5, "expense", some 1, 1⟩] : List Transaction).filter
        (fun t => t.category_id == some 1)).length ++ s2 := by
  have h := (claim_C9 ⟨[⟨1, "Groceries", "expense", 7⟩], [⟨5, "expense", some 1, 1⟩]⟩
    7 1 ⟨1, "Groceries", "expense", 7⟩ (by decide)).1 (by decide)
  exact ⟨by decide, by decide, h.1, h.2⟩

/-! ### Account.set_account_number -/

/-- The two account-number fields of an account row. -/
structure AccountRecord where
  account_number : Option String
  account_number_last4 : Option String
deriving DecidableEq

/-- `Account.set_account_number`: a falsy (empty) input is ignored;
otherwise the full input is stored, the digits are extracted, and the
last-4 field receives the last four digits, or all of them when fewer than
four exist. -/
def set_account_number (acc : AccountRecord) (input : String) : AccountRecord :=
  if input = "" then acc
  else
    let clean_number := String.mk (input.toList.filter Char.isDigit)
    { account_number := some input,
      account_number_last4 :=
        some (if 4 ≤ clean_number.length then
                String.mk (clean_number.toList.drop (clean_number.length - 4))
              else clean_number) }

/-- C10 counterexample: setting the empty string on an account that
already holds an account number leaves both fields unchanged; the claim
would require the stored account number to become the (empty) input. -/
theorem claim_C10_counterexample :
    set_account_number ⟨some "9876", some "9876"⟩ "" =
      ⟨some "9876", some "9876"⟩ ∧
    (set_account_number ⟨some "9876", some "9876"⟩ "").account_number ≠
      some "" :=
  ⟨rfl, by decide⟩

/-- C10 (amended): for every *nonempty* input string, the full unfiltered
input is stored unchanged and the last-4 field stores the last four of the
input's digits — the whole digit string when fewer than four digits exist
(the two cases collapse into one drop expression); the empty input leaves
the record untouched. -/
theorem claim_C10 (acc : AccountRecord) (input : String) (h : input ≠ "") :
    (set_account_number acc input).account_number = some input ∧
    (set_account_number acc input).account_number_last4 =
      some (String.mk ((input.toList.filter Char.isDigit).drop
        ((input.toList.filter Char.isDigit).length - 4))) := by
  unfold set_account_number
  rw [if_neg h]
  dsimp only
  refine ⟨rfl, ?_⟩
  by_cases h4 : 4 ≤ (String.mk (input.toList.filter Char.isDigit)).length
  · rw [if_pos h4]
    rfl
  · rw [if_neg h4]
    have hlt : (input.toList.filter Char.isDigit).length < 4 := by
      simpa [String.length] using h4
    have hz : (input.toList.filter Char.isDigit).length - 4 = 0 := by omega
    rw [hz, List.drop_zero]

/-- Witness for C10 at the concrete input `"12-345678-90"`, whose digits
end in 7890. -/
theorem claim_C10_witness :
    ("12-345678-90" : String) ≠ "" ∧
    (set_account_number ⟨none, none⟩ "12-345678-90").account_number =
      some "12-345678-90" ∧
    (set_account_number ⟨none, none⟩ "12-345678-90").account_number_last4 =
      some "7890" := by
  refine ⟨by decide, (claim_C10 ⟨none, none⟩ "12-345678-90" (by decide)).1, ?_⟩
  have h := (claim_C10 ⟨none, none⟩ "12-345678-90" (by decide)).2
  exact h.trans (by decide)

end Budget
